import Mathlib

/-!
# Task manager API: validation, statement assembly and handlers

A shallow embedding of `models/task.go` and `handlers/tasks.go`.

* Go strings are Lean strings; Go `len` is the UTF-8 byte size, a character is
  a Unicode code point.
* `nil` errors are `none`; a handler is a function from its inputs and the
  store to the response it writes (and the store it leaves).
* Instants (`time.Time`) are natural numbers.
-/

set_option autoImplicit false
set_option maxRecDepth 100000

namespace TaskManager

/-! ## models/task.go -/

/-- Task represents a task in the system. -/
structure Task where
  ID : Int
  Title : String
  Description : String
  Status : String
  Priority : String
  CreatedAt : Nat
  UpdatedAt : Nat
deriving DecidableEq, Repr

/-- TaskUpdate represents partial task updates; a nil pointer is `none`. -/
structure TaskUpdate where
  Title : Option String
  Description : Option String
  Status : Option String
  Priority : Option String
deriving DecidableEq, Repr

/-- Modelled from the spec: the four validation errors `EmptyTitle`, `TitleTooLong`,
`InvalidStatus`, `InvalidPriority` that `Validate` returns; the file declaring
`ErrEmptyTitle` .. `ErrInvalidPriority` is not among the sources, so they are taken as
four distinct values. -/
inductive ValidationError where
  | ErrEmptyTitle
  | ErrTitleTooLong
  | ErrInvalidStatus
  | ErrInvalidPriority
deriving DecidableEq, Repr

/-- Go `len(s)` of a string: its number of bytes. -/
def len (s : String) : Nat := s.utf8ByteSize

/-- The loop of `isValidStatus`: true as soon as one literal equals `status`. -/
def isValidStatus (status : String) : Bool :=
  let validStatuses := ["pending", "in_progress", "completed"]
  validStatuses.any (fun v => v == status)

/-- The loop of `isValidPriority`. -/
def isValidPriority (priority : String) : Bool :=
  let validPriorities := ["low", "medium", "high"]
  validPriorities.any (fun v => v == priority)

/-- Validate checks if task fields are valid. -/
def Task.Validate (t : Task) : Option ValidationError :=
  if t.Title == "" then
    some ValidationError.ErrEmptyTitle
  else if len t.Title > 255 then
    some ValidationError.ErrTitleTooLong
  else if !isValidStatus t.Status then
    some ValidationError.ErrInvalidStatus
  else if !isValidPriority t.Priority then
    some ValidationError.ErrInvalidPriority
  else
    none

/-- A title of 128 two-byte characters. -/
def wideTitle : String := String.mk (List.replicate 128 'é')

/-- A task whose title has 128 characters and 256 bytes. -/
def wideTask : Task :=
  { ID := 0, Title := wideTitle, Description := "", Status := "pending",
    Priority := "medium", CreatedAt := 0, UpdatedAt := 0 }

/-! ## strconv (Go standard library, 64-bit `int`) -/

/-- The bytes of a Go string (its UTF-8 encoding). -/
def bytes (s : String) : List Nat :=
  (s.data.flatMap String.utf8EncodeChar).map UInt8.toNat

/-- Go `strconv.Itoa`: the decimal text of an integer. -/
def Itoa (i : Int) : String := toString i

/-- The `Err` of a `*strconv.NumError`. -/
inductive NumError where
  | ErrSyntax
  | ErrRange
deriving DecidableEq, Repr

/-- Go `strconv.IntSize` on a 64-bit platform. -/
def intSize : Nat := 64

/-- The largest `uint64`. -/
def maxUint64 : Nat := 2 ^ 64 - 1

/-- Go `lower(c)` of strconv: `c | ('x' - 'X')`. -/
def lower (c : Nat) : Nat := c ||| 0x20

/-- The digit loop of `strconv.ParseUint` in base 10 (no `_` allowed outside base 0);
`n` is a `uint64`. -/
def ParseUint.loop (cutoff maxVal : Nat) : List Nat → Nat → Nat × Option NumError
  | [], n => (n, none)
  | c :: cs, n =>
    let d? : Option Nat :=
      if 48 ≤ c ∧ c ≤ 57 then some (c - 48)
      else if 97 ≤ lower c ∧ lower c ≤ 122 then some (lower c - 97 + 10)
      else none
    match d? with
    | none => (0, some NumError.ErrSyntax)
    | some d =>
      if d ≥ 10 then (0, some NumError.ErrSyntax)
      else if n ≥ cutoff then (maxVal, some NumError.ErrRange)
      else
        let n' := (n * 10) % 2 ^ 64
        let n1 := (n' + d) % 2 ^ 64
        if n1 < n' ∨ n1 > maxVal then (maxVal, some NumError.ErrRange)
        else ParseUint.loop cutoff maxVal cs n1

/-- Go `strconv.ParseUint(s, 10, 0)` on the bytes of `s`. -/
def ParseUint (s : List Nat) : Nat × Option NumError :=
  if s = [] then (0, some NumError.ErrSyntax)
  else
    let bitSize := intSize
    let cutoff := maxUint64 / 10 + 1
    let maxVal := (2 ^ bitSize % 2 ^ 64 + 2 ^ 64 - 1) % 2 ^ 64
    ParseUint.loop cutoff maxVal s 0

/-- Conversion of a `uint64` bit pattern to `int64`. -/
def toInt64 (x : Int) : Int := (x + 2 ^ 63) % 2 ^ 64 - 2 ^ 63

/-- Go `strconv.ParseInt(s, 10, 0)` on the bytes of `s`. -/
def ParseInt (s : List Nat) : Int × Option NumError :=
  match s with
  | [] => (0, some NumError.ErrSyntax)
  | c :: rest =>
    let neg := c = 45
    let s1 := if c = 43 ∨ c = 45 then rest else s
    match ParseUint s1 with
    | (_, some NumError.ErrSyntax) => (0, some NumError.ErrSyntax)
    | (un, _) =>
      let cutoff : Nat := 2 ^ (intSize - 1)
      if ¬ neg ∧ un ≥ cutoff then ((cutoff : Int) - 1, some NumError.ErrRange)
      else if neg ∧ un > cutoff then (-(cutoff : Int), some NumError.ErrRange)
      else
        let n := toInt64 un
        (if neg then toInt64 (-n) else n, none)

/-- The digit loop of the fast path of `strconv.Atoi`; `none` is a syntax error. -/
def Atoi.fast : List Nat → Int → Option Int
  | [], n => some n
  | ch :: rest, n =>
    let ch' := (ch + 256 - 48) % 256
    if ch' > 9 then none else Atoi.fast rest (n * 10 + ch')

/-- Go `strconv.Atoi` on the bytes of `s`: the value it returns and its error. -/
def AtoiBytes (s : List Nat) : Int × Option NumError :=
  let sLen := s.length
  if 0 < sLen ∧ sLen < 19 then
    match s with
    | [] => (0, some NumError.ErrSyntax)
    | c :: rest =>
      let s1 := if c = 45 ∨ c = 43 then rest else s
      if (c = 45 ∨ c = 43) ∧ s1.length < 1 then (0, some NumError.ErrSyntax)
      else
        match Atoi.fast s1 0 with
        | none => (0, some NumError.ErrSyntax)
        | some n => (if c = 45 then -n else n, none)
  else
    ParseInt s

/-- Go `strconv.Atoi(s)`: the value it returns and its error, `none` for nil. -/
def Atoi (s : String) : Int × Option NumError := AtoiBytes (bytes s)

/-- Whether the first byte of a string is the minus sign. -/
def hasMinusSign (s : String) : Bool := (bytes s).head? == some 45

/-! ## Statements and what the store answers -/

/-- A value bound to a placeholder. -/
inductive SqlArg where
  | text (s : String)
  | int (n : Int)
  | time (t : Nat)
deriving DecidableEq, Repr

/-- A parameterized statement: its text and the bound argument list. -/
structure Stmt where
  query : String
  args : List SqlArg
deriving DecidableEq, Repr

/-- An error of `database/sql`: `sql.ErrNoRows`, or any other. -/
inductive DbError where
  | ErrNoRows
  | failure
deriving DecidableEq, Repr

/-! ## handlers/tasks.go: statement assembly -/

/-- Gin `c.Query(key)`: the value of the query parameter, `""` when absent. -/
def Query (v : Option String) : String := v.getD ""

/-- Gin `c.DefaultQuery(key, d)`: the value of the query parameter, `d` when absent. -/
def DefaultQuery (v : Option String) (d : String) : String := v.getD d

/-- Lines 16-42 of `GetTasks`: the statement it hands to `database.DB.Query`. -/
def GetTasks.build (status? priority? limit? : Option String) : Stmt := Id.run do
  let status := Query status?
  let priority := Query priority?
  let limit := DefaultQuery limit? "100"
  let mut query :=
    "\n\t\tSELECT id, title, description, status, priority, created_at, updated_at \n\t\tFROM tasks \n\t\tWHERE 1=1\n\t"
  let mut args : List SqlArg := []
  let mut argCount : Int := 1
  if status != "" then
    query := query ++ (" AND status = $" ++ Itoa argCount)
    args := args ++ [SqlArg.text status]
    argCount := argCount + 1
  if priority != "" then
    query := query ++ (" AND priority = $" ++ Itoa argCount)
    args := args ++ [SqlArg.text priority]
    argCount := argCount + 1
  query := query ++ (" ORDER BY created_at DESC LIMIT $" ++ Itoa argCount)
  let (limitInt, _) := Atoi limit
  args := args ++ [SqlArg.int limitInt]
  return { query := query, args := args }

/-- Lines 176-206 of `UpdateTask`: the statement it hands to `database.DB.QueryRow`.
`id` is `c.Param("id")`, the text of the path parameter, bound as it is. -/
def UpdateTask.build (update : TaskUpdate) (now : Nat) (id : String) : Stmt := Id.run do
  let mut query := "UPDATE tasks SET updated_at = $1"
  let mut args : List SqlArg := [SqlArg.time now]
  let mut argCount : Int := 2
  if let some title := update.Title then
    query := query ++ (", title = $" ++ Itoa argCount)
    args := args ++ [SqlArg.text title]
    argCount := argCount + 1
  if let some description := update.Description then
    query := query ++ (", description = $" ++ Itoa argCount)
    args := args ++ [SqlArg.text description]
    argCount := argCount + 1
  if let some status := update.Status then
    query := query ++ (", status = $" ++ Itoa argCount)
    args := args ++ [SqlArg.text status]
    argCount := argCount + 1
  if let some priority := update.Priority then
    query := query ++ (", priority = $" ++ Itoa argCount)
    args := args ++ [SqlArg.text priority]
    argCount := argCount + 1
  query := query ++ (" WHERE id = $" ++ Itoa argCount)
  query := query ++ " RETURNING id, title, description, status, priority, created_at, updated_at"
  args := args ++ [SqlArg.text id]
  return { query := query, args := args }

/-! ## Responses -/

/-- The error of `c.ShouldBindJSON`: the body does not decode, or a `binding` tag fails
on the listed (field, tag) pairs. -/
inductive BindError where
  | decode (msg : String)
  | validation (failed : List (String × String))
deriving DecidableEq, Repr

/-- TaskStats represents task statistics; a Go map is an association list. -/
structure TaskStats where
  Total : Int
  ByStatus : List (String × Int)
  ByPriority : List (String × Int)
  CompletedToday : Int
deriving DecidableEq, Repr

/-- The JSON bodies the handlers write. -/
inductive Body where
  | error (error : String)
  | errorDetails (error : String) (details : BindError)
  | task (task : Task)
  | tasks (tasks : List Task) (count : Nat)
  | deleted (message : String) (id : Int)
  | stats (stats : TaskStats)
deriving DecidableEq, Repr

/-- What `c.JSON(code, body)` writes. -/
structure Response where
  code : Nat
  body : Body
deriving DecidableEq, Repr

/-- How a handler ends: it has written a response, or it panics. -/
inductive Outcome where
  | response (r : Response)
  | panic
deriving DecidableEq, Repr

/-! ## The store

`database.DB` is a PostgreSQL table `tasks` created by `createTables` with
`id SERIAL PRIMARY KEY`. The store is a list of rows keyed by `ID`, the next value of the
`id` sequence, and the statements issued so far. Which statements it fails to execute and
how a timestamp column keeps an instant are left arbitrary. In `GetTask` and `DeleteTask`
the `:id` path parameter is carried as the integer key of the row it denotes; a text that
denotes none is one of the statements the store fails to execute. -/

/-- The state of the store. -/
structure Db where
  rows : List Task
  nextId : Int
  issued : List Stmt
  refuses : Stmt → Bool
  stamp : Nat → Nat

/-- Statement `INSERT INTO tasks (...) VALUES ($1..$6) RETURNING id, created_at, updated_at`,
scanned: the row gets the next id of the sequence and the bound values; a refused statement
or a key already in use is an error. -/
def Db.insert (db : Db) (stmt : Stmt) : Db × Except DbError (Int × Nat × Nat) :=
  let db1 := { db with issued := db.issued ++ [stmt] }
  match stmt.args with
  | [SqlArg.text title, SqlArg.text description, SqlArg.text status, SqlArg.text priority,
      SqlArg.time createdAt, SqlArg.time updatedAt] =>
    if db.refuses stmt then (db1, Except.error DbError.failure)
    else if db.rows.any (fun r => r.ID == db.nextId) then
      ({ db1 with nextId := db.nextId + 1 }, Except.error DbError.failure)
    else
      let row : Task :=
        { ID := db.nextId, Title := title, Description := description, Status := status,
          Priority := priority, CreatedAt := db.stamp createdAt,
          UpdatedAt := db.stamp updatedAt }
      ({ db1 with rows := db.rows ++ [row], nextId := db.nextId + 1 },
        Except.ok (row.ID, row.CreatedAt, row.UpdatedAt))
  | _ => (db1, Except.error DbError.failure)

/-- Statement `SELECT ... FROM tasks WHERE id = $1`, scanned: the row with that key,
`sql.ErrNoRows` when there is none. -/
def Db.selectById (db : Db) (stmt : Stmt) : Db × Except DbError Task :=
  let db1 := { db with issued := db.issued ++ [stmt] }
  match stmt.args with
  | [SqlArg.int id] =>
    if db.refuses stmt then (db1, Except.error DbError.failure)
    else
      match db.rows.find? (fun r => r.ID == id) with
      | some row => (db1, Except.ok row)
      | none => (db1, Except.error DbError.ErrNoRows)
  | _ => (db1, Except.error DbError.failure)

/-- Statement `DELETE FROM tasks WHERE id = $1`: removes the rows with that key and reports
how many there were. -/
def Db.deleteById (db : Db) (stmt : Stmt) : Db × Except DbError Nat :=
  let db1 := { db with issued := db.issued ++ [stmt] }
  match stmt.args with
  | [SqlArg.int id] =>
    if db.refuses stmt then (db1, Except.error DbError.failure)
    else
      ({ db1 with rows := db.rows.filter (fun r => r.ID != id) },
        Except.ok (db.rows.filter (fun r => r.ID == id)).length)
  | _ => (db1, Except.error DbError.failure)

/-! ## handlers/tasks.go: the handlers -/

/-- The scan loop of `GetTasks` over the rows in order; `none` is a row on which
`rows.Scan` fails, and the result `none` is that failure. -/
def GetTasks.scan : List (Option Task) → List Task → Option (List Task)
  | [], tasks => some tasks
  | none :: _, _ => none
  | some task :: rest, tasks => GetTasks.scan rest (tasks ++ [task])

/-- GetTasks retrieves all tasks with optional filtering. `DBQuery` is what
`database.DB.Query` answers to a statement. -/
def GetTasks (status? priority? limit? : Option String)
    (DBQuery : Stmt → Except DbError (List (Option Task))) : Response :=
  match DBQuery (GetTasks.build status? priority? limit?) with
  | Except.error _ => { code := 500, body := Body.error "Failed to fetch tasks" }
  | Except.ok rows =>
    match GetTasks.scan rows [] with
    | none => { code := 500, body := Body.error "Failed to scan task" }
    | some tasks => { code := 200, body := Body.tasks tasks tasks.length }

/-- The statement of `GetTask`. The `:id` path parameter is carried as the integer key it
denotes. -/
def GetTask.stmt (id : Int) : Stmt :=
  { query := "\n\t\tSELECT id, title, description, status, priority, created_at, updated_at \n\t\tFROM tasks \n\t\tWHERE id = $1\n\t",
    args := [SqlArg.int id] }

/-- GetTask retrieves a single task by ID. -/
def GetTask (id : Int) (db : Db) : Response × Db :=
  match db.selectById (GetTask.stmt id) with
  | (db1, Except.error DbError.ErrNoRows) =>
    ({ code := 404, body := Body.error "Task not found" }, db1)
  | (db1, Except.error _) =>
    ({ code := 500, body := Body.error "Failed to fetch task" }, db1)
  | (db1, Except.ok task) => ({ code := 200, body := Body.task task }, db1)

/-- The statement of `CreateTask`: the same instant is bound for both timestamps. -/
def CreateTask.stmt (task : Task) (now : Nat) : Stmt :=
  { query := "\n\t\tINSERT INTO tasks (title, description, status, priority, created_at, updated_at)\n\t\tVALUES ($1, $2, $3, $4, $5, $6)\n\t\tRETURNING id, created_at, updated_at\n\t",
    args := [SqlArg.text task.Title, SqlArg.text task.Description, SqlArg.text task.Status,
      SqlArg.text task.Priority, SqlArg.time now, SqlArg.time now] }

/-- CreateTask creates a new task. `bound` is what `c.ShouldBindJSON(&task)` gives, `Error`
the message of a validation error, `now` the value of `time.Now()`. -/
def CreateTask (Error : ValidationError → String) (bound : Except BindError Task)
    (now : Nat) (db : Db) : Response × Db :=
  match bound with
  | Except.error err =>
    ({ code := 400, body := Body.errorDetails "Invalid request data" err }, db)
  | Except.ok task =>
    match task.Validate with
    | some err => ({ code := 400, body := Body.error (Error err) }, db)
    | none =>
      match db.insert (CreateTask.stmt task now) with
      | (db1, Except.error _) =>
        ({ code := 500, body := Body.error "Failed to create task" }, db1)
      | (db1, Except.ok (id, createdAt, updatedAt)) =>
        ({ code := 201,
           body := Body.task { task with ID := id, CreatedAt := createdAt,
                                         UpdatedAt := updatedAt } }, db1)

/-- UpdateTask updates an existing task. `bound` is what `c.ShouldBindJSON(&update)`
gives, `DBQueryRow` what `database.DB.QueryRow(...).Scan(...)` answers to a statement. -/
def UpdateTask (bound : Except BindError TaskUpdate) (now : Nat) (id : String)
    (DBQueryRow : Stmt → Except DbError Task) : Response :=
  match bound with
  | Except.error err =>
    { code := 400, body := Body.errorDetails "Invalid request data" err }
  | Except.ok update =>
    match DBQueryRow (UpdateTask.build update now id) with
    | Except.error DbError.ErrNoRows => { code := 404, body := Body.error "Task not found" }
    | Except.error _ => { code := 500, body := Body.error "Failed to update task" }
    | Except.ok task => { code := 200, body := Body.task task }

/-- The statement of `DeleteTask`. -/
def DeleteTask.stmt (id : Int) : Stmt :=
  { query := "DELETE FROM tasks WHERE id = $1", args := [SqlArg.int id] }

/-- DeleteTask deletes a task by ID. -/
def DeleteTask (id : Int) (db : Db) : Response × Db :=
  match db.deleteById (DeleteTask.stmt id) with
  | (db1, Except.error _) =>
    ({ code := 500, body := Body.error "Failed to delete task" }, db1)
  | (db1, Except.ok rowsAffected) =>
    if rowsAffected == 0 then
      ({ code := 404, body := Body.error "Task not found" }, db1)
    else
      ({ code := 200, body := Body.deleted "Task deleted successfully" id }, db1)

/-- Assignment `m[k] = v` on a Go map. -/
def mapSet (m : List (String × Int)) (k : String) (v : Int) : List (String × Int) :=
  if m.any (fun e => e.1 == k) then m.map (fun e => if e.1 == k then (k, v) else e)
  else m ++ [(k, v)]

/-- The loop `for rows.Next() ... m[key] = count` of `GetStats`; a row is the pair left in
the two variables by `rows.Scan`, whose error is ignored. -/
def GetStats.collect (rows : List (String × Int)) (m : List (String × Int)) :
    List (String × Int) :=
  rows.foldl (fun acc row => mapSet acc row.1 row.2) m

/-- GetStats returns task statistics. `total` and `completedToday` are what the two
`QueryRow(...).Scan(...)` calls give; `byStatus` and `byPriority` are the rows of the two
`database.DB.Query` calls, `none` when the call fails: its error is dropped and the
`*sql.Rows` it returns is nil, so that `rows.Next()` dereferences a nil pointer. -/
def GetStats (total : Except DbError Int) (byStatus byPriority : Option (List (String × Int)))
    (completedToday : Except DbError Int) : Outcome :=
  match total with
  | Except.error _ =>
    Outcome.response { code := 500, body := Body.error "Failed to get stats" }
  | Except.ok n =>
    match byStatus with
    | none => Outcome.panic
    | some rows1 =>
      let m1 := GetStats.collect rows1 []
      match byPriority with
      | none => Outcome.panic
      | some rows2 =>
        let m2 := GetStats.collect rows2 []
        let today := match completedToday with
          | Except.ok k => k
          | Except.error _ => 0
        Outcome.response
          { code := 200,
            body := Body.stats { Total := n, ByStatus := m1, ByPriority := m2,
                                 CompletedToday := today } }

/-! ## The binding tags of `Task` and `TaskUpdate`

`c.ShouldBindJSON` decodes the body and then checks the `binding` tags of the struct with
go-playground/validator, whose documented reading is: `required` fails on the zero value,
the empty string; `omitempty` skips a field that is not set, which for a pointer means
nil; on a set field `min` and `max` bound the number of characters of a string and `oneof`
lists the admitted values. The tags of a field are checked in order and the first that
fails is reported for it. -/

/-- Tag `required` on a string. -/
def tagRequired (s : String) : Bool := s != ""

/-- Tag `min=n` on a string. -/
def tagMin (n : Nat) (s : String) : Bool := n ≤ s.length

/-- Tag `max=n` on a string. -/
def tagMax (n : Nat) (s : String) : Bool := s.length ≤ n

/-- Tag `oneof=v1 v2 ...` on a string. -/
def tagOneof (vals : List String) (s : String) : Bool := vals.any (fun v => v == s)

/-- The (field, tag) pairs on which the tags of `TaskUpdate` fail:
`Title: omitempty,min=1,max=255`, `Status: omitempty,oneof=pending in_progress completed`,
`Priority: omitempty,oneof=low medium high`; `Description` has no tag. -/
def TaskUpdate.bindingFailures (u : TaskUpdate) : List (String × String) :=
  (match u.Title with
    | none => []
    | some title =>
      if !tagMin 1 title then [("Title", "min")]
      else if !tagMax 255 title then [("Title", "max")]
      else []) ++
  (match u.Status with
    | none => []
    | some status =>
      if !tagOneof ["pending", "in_progress", "completed"] status then [("Status", "oneof")]
      else []) ++
  (match u.Priority with
    | none => []
    | some priority =>
      if !tagOneof ["low", "medium", "high"] priority then [("Priority", "oneof")]
      else [])

/-- The (field, tag) pairs on which the tags of `Task` fail:
`Title: required,min=1,max=255`, `Status: required,oneof=pending in_progress completed`,
`Priority: required,oneof=low medium high`; the other fields have no tag. -/
def Task.bindingFailures (t : Task) : List (String × String) :=
  (if !tagRequired t.Title then [("Title", "required")]
    else if !tagMin 1 t.Title then [("Title", "min")]
    else if !tagMax 255 t.Title then [("Title", "max")]
    else []) ++
  (if !tagRequired t.Status then [("Status", "required")]
    else if !tagOneof ["pending", "in_progress", "completed"] t.Status then
      [("Status", "oneof")]
    else []) ++
  (if !tagRequired t.Priority then [("Priority", "required")]
    else if !tagOneof ["low", "medium", "high"] t.Priority then [("Priority", "oneof")]
    else [])

/-- Gin `c.ShouldBindJSON(&task)` for a `Task`: `decoded` is the outcome of decoding the
JSON body (absent fields are zero values). -/
def ShouldBindJSON_Task (decoded : Except String Task) : Except BindError Task :=
  match decoded with
  | Except.error msg => Except.error (BindError.decode msg)
  | Except.ok t =>
    if t.bindingFailures = [] then Except.ok t
    else Except.error (BindError.validation t.bindingFailures)

/-- Gin `c.ShouldBindJSON(&update)` for a `TaskUpdate`: `decoded` is the outcome of decoding
the JSON body (absent and null fields are nil). -/
def ShouldBindJSON_TaskUpdate (decoded : Except String TaskUpdate) :
    Except BindError TaskUpdate :=
  match decoded with
  | Except.error msg => Except.error (BindError.decode msg)
  | Except.ok u =>
    if u.bindingFailures = [] then Except.ok u
    else Except.error (BindError.validation u.bindingFailures)

/-! ## Reading a statement back -/

/-- The numbers of the placeholders `$n` of a statement text, in order of occurrence;
`cur` is the number being read. -/
def placeholdersAux : List Char → Option Nat → List Nat
  | [], none => []
  | [], some n => [n]
  | c :: cs, none => if c = '$' then placeholdersAux cs (some 0) else placeholdersAux cs none
  | c :: cs, some n =>
    if c.isDigit then placeholdersAux cs (some (10 * n + (c.toNat - 48)))
    else n :: (if c = '$' then placeholdersAux cs (some 0) else placeholdersAux cs none)

/-- The placeholders of a statement text, in order of occurrence. -/
def placeholders (q : String) : List Nat := placeholdersAux q.data none

/-- Whether `part` occurs in `q`. -/
def occursIn (part q : String) : Bool :=
  q.data.tails.any (fun t => part.data.isPrefixOf t)

/-- Whether `q` ends with `part`. -/
def endsWith (q part : String) : Bool :=
  part.data.reverse.isPrefixOf q.data.reverse

/-- The filter values of `GetTasks` that are present (non-empty), in the order status,
priority. -/
def presentFilters (status? priority? : Option String) : List String :=
  [Query status?, Query priority?].filter (fun v => v != "")

/-- The fields present in an update payload with the column each one sets, in the order
title, description, status, priority. -/
def presentFields (u : TaskUpdate) : List (String × String) :=
  (u.Title.map (fun v => ("title", v))).toList ++
  (u.Description.map (fun v => ("description", v))).toList ++
  (u.Status.map (fun v => ("status", v))).toList ++
  (u.Priority.map (fun v => ("priority", v))).toList

/-- The text `, col = $k` of the assignments of `cols`, the first using placeholder `k`. -/
def assignments : List String → Nat → String
  | [], _ => ""
  | col :: cols, k => ", " ++ col ++ " = $" ++ toString k ++ assignments cols (k + 1)

/-! ## Sample inputs -/

/-- An empty store that executes every statement and keeps instants as they are. -/
def emptyDb : Db :=
  { rows := [], nextId := 1, issued := [], refuses := fun _ => false, stamp := fun t => t }

/-- The task of the round-trip test: title `Test`, status `pending`, priority `medium`. -/
def sampleTask : Task :=
  { ID := 0, Title := "Test", Description := "", Status := "pending", Priority := "medium",
    CreatedAt := 0, UpdatedAt := 0 }

/-- The task of the body `{"title":"","status":"pending","priority":"medium"}`. -/
def emptyTitleTask : Task := { sampleTask with Title := "" }

/-- A store holding two rows, with keys 1 and 2. -/
def twoRowDb : Db :=
  { rows := [{ sampleTask with ID := 1, CreatedAt := 5, UpdatedAt := 5 },
             { sampleTask with ID := 2, Title := "Other", CreatedAt := 6, UpdatedAt := 6 }],
    nextId := 3, issued := [], refuses := fun _ => false, stamp := fun t => t }

/-- An update payload that sets the status only. -/
def statusOnly : TaskUpdate :=
  { Title := none, Description := none, Status := some "completed", Priority := none }

/-! ## Facts about the validator -/

theorem isValidStatus_iff (s : String) :
    isValidStatus s = true ↔ s = "pending" ∨ s = "in_progress" ∨ s = "completed" := by
  unfold isValidStatus
  simp only [List.any_cons, List.any_nil, Bool.or_false, Bool.or_eq_true, beq_iff_eq]
  constructor
  · rintro (h | h | h) <;> simp [← h]
  · rintro (h | h | h) <;> simp [h]

theorem isValidPriority_iff (p : String) :
    isValidPriority p = true ↔ p = "low" ∨ p = "medium" ∨ p = "high" := by
  unfold isValidPriority
  simp only [List.any_cons, List.any_nil, Bool.or_false, Bool.or_eq_true, beq_iff_eq]
  constructor
  · rintro (h | h | h) <;> simp [← h]
  · rintro (h | h | h) <;> simp [h]

/-- C1: `Validate` returns the error of the first violated check in the order empty title,
title longer than 255 bytes, status outside the three literals, priority outside the three
literals; it returns nil exactly when no check is violated; `ErrInvalidPriority` is returned
only when title and status are valid. -/
theorem Validate_first_violation (t : Task) :
    (t.Title = "" → t.Validate = some ValidationError.ErrEmptyTitle) ∧
    (t.Title ≠ "" → len t.Title > 255 → t.Validate = some ValidationError.ErrTitleTooLong) ∧
    (t.Title ≠ "" → len t.Title ≤ 255 →
      ¬ (t.Status = "pending" ∨ t.Status = "in_progress" ∨ t.Status = "completed") →
      t.Validate = some ValidationError.ErrInvalidStatus) ∧
    (t.Title ≠ "" → len t.Title ≤ 255 →
      (t.Status = "pending" ∨ t.Status = "in_progress" ∨ t.Status = "completed") →
      ¬ (t.Priority = "low" ∨ t.Priority = "medium" ∨ t.Priority = "high") →
      t.Validate = some ValidationError.ErrInvalidPriority) ∧
    (t.Validate = none ↔
      t.Title ≠ "" ∧ len t.Title ≤ 255 ∧
      (t.Status = "pending" ∨ t.Status = "in_progress" ∨ t.Status = "completed") ∧
      (t.Priority = "low" ∨ t.Priority = "medium" ∨ t.Priority = "high")) ∧
    (t.Validate = some ValidationError.ErrInvalidPriority →
      t.Title ≠ "" ∧ len t.Title ≤ 255 ∧
      (t.Status = "pending" ∨ t.Status = "in_progress" ∨ t.Status = "completed")) := by
  have hs := isValidStatus_iff t.Status
  have hp := isValidPriority_iff t.Priority
  unfold Task.Validate
  by_cases h1 : t.Title = ""
  · simp [h1]
  · by_cases h2 : len t.Title > 255
    · simp [h1, h2]
    · by_cases h3 : isValidStatus t.Status = true
      · by_cases h4 : isValidPriority t.Priority = true
        · have h3' := hs.mp h3
          have h4' := hp.mp h4
          simp [h1, h2, h3, h4, h3', h4']
          omega
        · have h3' := hs.mp h3
          have h4' : ¬ (t.Priority = "low" ∨ t.Priority = "medium" ∨ t.Priority = "high") :=
            fun h => h4 (hp.mpr h)
          simp [h1, h2, h3, h4, h3', h4']
          omega
      · have h3' : ¬ (t.Status = "pending" ∨ t.Status = "in_progress" ∨ t.Status = "completed") :=
          fun h => h3 (hs.mpr h)
        simp [h1, h2, h3, h3']

/-- C2: a task with a non-empty title of 128 characters, status `pending` and priority
`medium` is rejected with `ErrTitleTooLong`, because its title has 256 bytes. -/
theorem Validate_rejects_wide_title :
    wideTask.Title ≠ "" ∧ wideTask.Title.length = 128 ∧ len wideTask.Title = 256 ∧
    wideTask.Status = "pending" ∧ wideTask.Priority = "medium" ∧
    wideTask.Validate = some ValidationError.ErrTitleTooLong := by
  decide

/-- A task with a non-empty title of at most 255 bytes, a status among the three status
literals and a priority among the three priority literals passes `Validate`. -/
theorem Validate_ok_of_bytes (t : Task) (htitle : t.Title ≠ "") (hlen : len t.Title ≤ 255)
    (hstatus : t.Status = "pending" ∨ t.Status = "in_progress" ∨ t.Status = "completed")
    (hpriority : t.Priority = "low" ∨ t.Priority = "medium" ∨ t.Priority = "high") :
    t.Validate = none := by
  have hs := (isValidStatus_iff t.Status).mpr hstatus
  have hp := (isValidPriority_iff t.Priority).mpr hpriority
  have hl : ¬ len t.Title > 255 := by omega
  simp [Task.Validate, htitle, hl, hs, hp]

theorem Validate_ok_of_bytes_witness : sampleTask.Validate = none :=
  Validate_ok_of_bytes sampleTask (by decide) (by decide) (by decide) (by decide)

/-! ## Facts about the assembled statements -/

/-- C3: the statement of `UpdateTask` assigns `updated_at = $1` and then the present fields
in the order title, description, status, priority with placeholders `$2`, `$3`, ...; its
arguments are the instant, the present values in that order, and the id, which is the text
of the path parameter whatever it is; the `WHERE`
placeholder is `$n` with `n = 2 + present fields = number of arguments`; the placeholders
read from the text are exactly `1..n`, each once, and the `k`-th argument is the value of
the `k`-th placeholder. -/
theorem UpdateTask_build_statement (update : TaskUpdate) (now : Nat) (id : String) :
    (UpdateTask.build update now id).query =
      "UPDATE tasks SET updated_at = $1" ++
        assignments ((presentFields update).map Prod.fst) 2 ++
        " WHERE id = $" ++ toString (2 + (presentFields update).length) ++
        " RETURNING id, title, description, status, priority, created_at, updated_at" ∧
    (UpdateTask.build update now id).args =
      [SqlArg.time now] ++ (presentFields update).map (fun f => SqlArg.text f.2) ++
        [SqlArg.text id] ∧
    (UpdateTask.build update now id).args.length = 2 + (presentFields update).length ∧
    (UpdateTask.build update now id).args[0]? = some (SqlArg.time now) ∧
    (∀ (i : Nat) (f : String × String), (presentFields update)[i]? = some f →
      (UpdateTask.build update now id).args[i + 1]? = some (SqlArg.text f.2)) ∧
    (UpdateTask.build update now id).args[2 + (presentFields update).length - 1]? =
      some (SqlArg.text id) ∧
    placeholders (UpdateTask.build update now id).query =
      List.range' 1 (2 + (presentFields update).length) := by
  rcases update with ⟨_ | t, _ | d, _ | st, _ | p⟩ <;>
    refine ⟨by rfl, by rfl, by rfl, by rfl, ?_, by rfl, by rfl⟩ <;>
    intro i f hf <;>
    rcases i with _ | _ | _ | _ | i <;>
    simp_all [presentFields, UpdateTask.build, Id.run] <;>
    (subst hf; rfl)

/-- The statement of `GetTasks`, by which filters are present. -/
theorem GetTasks_build_cases (status? priority? limit? : Option String) (bs bp : Bool)
    (hs : (Query status? != "") = bs) (hp : (Query priority? != "") = bp) :
    GetTasks.build status? priority? limit? =
      { query := "\n\t\tSELECT id, title, description, status, priority, created_at, updated_at \n\t\tFROM tasks \n\t\tWHERE 1=1\n\t" ++
          (if bs then " AND status = $1" else "") ++
          (if bp then " AND priority = $" ++ (if bs then "2" else "1") else "") ++
          " ORDER BY created_at DESC LIMIT $" ++
            (if bs then (if bp then "3" else "2") else (if bp then "2" else "1")),
        args := (if bs then [SqlArg.text (Query status?)] else []) ++
          (if bp then [SqlArg.text (Query priority?)] else []) ++
          [SqlArg.int (Atoi (DefaultQuery limit? "100")).1] } := by
  unfold GetTasks.build
  simp only [Id.run, hs, hp]
  cases bs <;> cases bp <;> rfl

/-- C4: the statement of `GetTasks` has the status filter exactly when status is non-empty
and the priority filter exactly when priority is non-empty, joined with `AND`; it ends with
`ORDER BY created_at DESC LIMIT $k`, `k = 1 + filters present`; its arguments are the
non-empty filter values in the order status, priority, then the parsed limit, `k` in all;
the placeholders read from the text are exactly `1..k` and each filter's placeholder is the
position of its value. -/
theorem GetTasks_build_statement (status? priority? limit? : Option String) :
    (occursIn " AND status = $" (GetTasks.build status? priority? limit?).query = true ↔
      Query status? ≠ "") ∧
    (occursIn " AND priority = $" (GetTasks.build status? priority? limit?).query = true ↔
      Query priority? ≠ "") ∧
    (Query status? ≠ "" → Query priority? ≠ "" →
      occursIn " AND status = $1 AND priority = $2 ORDER BY"
        (GetTasks.build status? priority? limit?).query = true) ∧
    endsWith (GetTasks.build status? priority? limit?).query
      (" ORDER BY created_at DESC LIMIT $" ++
        toString (1 + (presentFilters status? priority?).length)) = true ∧
    (GetTasks.build status? priority? limit?).args =
      (presentFilters status? priority?).map SqlArg.text ++
        [SqlArg.int (Atoi (DefaultQuery limit? "100")).1] ∧
    (GetTasks.build status? priority? limit?).args.length =
      1 + (presentFilters status? priority?).length ∧
    (Query status? ≠ "" →
      occursIn " AND status = $1" (GetTasks.build status? priority? limit?).query = true ∧
      (GetTasks.build status? priority? limit?).args[0]? =
        some (SqlArg.text (Query status?))) ∧
    (Query priority? ≠ "" →
      occursIn (" AND priority = $" ++ toString (presentFilters status? priority?).length)
        (GetTasks.build status? priority? limit?).query = true ∧
      (GetTasks.build status? priority? limit?).args[
          (presentFilters status? priority?).length - 1]? =
        some (SqlArg.text (Query priority?))) ∧
    (GetTasks.build status? priority? limit?).args[(presentFilters status? priority?).length]? =
      some (SqlArg.int (Atoi (DefaultQuery limit? "100")).1) ∧
    placeholders (GetTasks.build status? priority? limit?).query =
      List.range' 1 (1 + (presentFilters status? priority?).length) := by
  have hb := GetTasks_build_cases status? priority? limit? _ _ rfl rfl
  have hs : (Query status? ≠ "") ↔ (Query status? != "") = true := by simp
  have hp : (Query priority? ≠ "") ↔ (Query priority? != "") = true := by simp
  simp only [presentFilters, hs, hp, hb, List.filter]
  cases (Query status? != "") <;> cases (Query priority? != "") <;>
    refine ⟨by decide, by decide, by decide, ?_, by rfl, by rfl, ?_, ?_, by rfl, ?_⟩ <;>
    (try simp only [List.length_cons, List.length_nil]) <;>
    first
      | decide
      | (intro h; first | exact absurd h (by decide) | exact ⟨by decide, by rfl⟩)

/-! ## Facts about `strconv.Atoi` and the limit of `GetTasks` -/

theorem ParseUint_loop_cases (cutoff maxVal : Nat) (s : List Nat) (n : Nat) :
    (ParseUint.loop cutoff maxVal s n).2 = none ∨
    ParseUint.loop cutoff maxVal s n = (0, some NumError.ErrSyntax) ∨
    ParseUint.loop cutoff maxVal s n = (maxVal, some NumError.ErrRange) := by
  induction s generalizing n with
  | nil => left; rfl
  | cons c cs ih =>
    unfold ParseUint.loop
    dsimp only
    split
    · right; left; rfl
    · split
      · right; left; rfl
      · split
        · right; right; rfl
        · split
          · right; right; rfl
          · exact ih _

theorem ParseInt_cases (s : List Nat) :
    (ParseInt s).2 = none ∨ ParseInt s = (0, some NumError.ErrSyntax) ∨
    ParseInt s = (2 ^ 63 - 1, some NumError.ErrRange) ∨
    ParseInt s = (-2 ^ 63, some NumError.ErrRange) := by
  unfold ParseInt
  split
  · right; left; rfl
  · dsimp only
    split
    · right; left; rfl
    · split
      · right; right; left; rfl
      · split
        · right; right; right; rfl
        · left; rfl

theorem AtoiBytes_cases (s : List Nat) :
    (AtoiBytes s).2 = none ∨ AtoiBytes s = (0, some NumError.ErrSyntax) ∨
    AtoiBytes s = (2 ^ 63 - 1, some NumError.ErrRange) ∨
    AtoiBytes s = (-2 ^ 63, some NumError.ErrRange) := by
  unfold AtoiBytes
  dsimp only
  split
  · split
    · right; left; rfl
    · repeat' split
      all_goals simp
  · exact ParseInt_cases s

theorem ParseInt_range_value (s : List Nat) (v : Int)
    (h : ParseInt s = (v, some NumError.ErrRange)) :
    v = if s.head? = some 45 then -9223372036854775808 else 9223372036854775807 := by
  unfold ParseInt at h
  cases s with
  | nil => simp at h
  | cons c rest =>
    simp only [List.head?_cons, Option.some.injEq] at h ⊢
    split at h
    · simp at h
    · split at h
      · rename_i hpos
        simp only [Prod.mk.injEq, and_true] at h
        rw [if_neg hpos.1, ← h]
        rfl
      · split at h
        · rename_i hneg
          simp only [Prod.mk.injEq, and_true] at h
          rw [if_pos hneg.1, ← h]
          rfl
        · simp at h

theorem AtoiBytes_range_value (s : List Nat) (v : Int)
    (h : AtoiBytes s = (v, some NumError.ErrRange)) :
    v = if s.head? = some 45 then -9223372036854775808 else 9223372036854775807 := by
  unfold AtoiBytes at h
  dsimp only at h
  split at h
  · exfalso
    revert h
    repeat' split
    all_goals simp
  · exact ParseInt_range_value s v h

/-- When `Atoi` fails, the value it returns is 0 for a syntax error; for a range error it is
the least `int` when the string starts with a minus sign and the greatest `int` otherwise. -/
theorem Atoi_failure_value (s : String) (e : NumError) (h : (Atoi s).2 = some e) :
    (e = NumError.ErrSyntax → (Atoi s).1 = 0) ∧
    (e = NumError.ErrRange →
      (Atoi s).1 =
        if hasMinusSign s = true then -9223372036854775808 else 9223372036854775807) := by
  constructor
  · intro he
    subst he
    unfold Atoi at *
    rcases AtoiBytes_cases (bytes s) with h0 | h0 | h0 | h0
    · rw [h0] at h; cases h
    · rw [h0]
    · rw [h0] at h; cases h
    · rw [h0] at h; cases h
  · intro he
    subst he
    have h1 : AtoiBytes (bytes s) = ((Atoi s).1, some NumError.ErrRange) := by
      unfold Atoi at *
      rw [← h]
    have h2 := AtoiBytes_range_value (bytes s) _ h1
    rw [h2]
    simp [hasMinusSign]

/-- Strings on which `Atoi` fails, with the value it returns: the empty string and text
without digits give 0, a digit string too large gives the greatest `int`, also when text
follows the digits, and one too small gives the least `int`. -/
theorem Atoi_failing_samples :
    Atoi "" = (0, some NumError.ErrSyntax) ∧
    Atoi "abc" = (0, some NumError.ErrSyntax) ∧
    Atoi "9223372036854775808" = (9223372036854775807, some NumError.ErrRange) ∧
    Atoi "99999999999999999999x" = (9223372036854775807, some NumError.ErrRange) ∧
    Atoi "-9223372036854775809" = (-9223372036854775808, some NumError.ErrRange) := by
  decide

theorem GetTasks_scan_all (tasks acc : List Task) :
    GetTasks.scan (tasks.map some) acc = some (acc ++ tasks) := by
  induction tasks generalizing acc with
  | nil => simp [GetTasks.scan]
  | cons t ts ih => simp [GetTasks.scan, ih]

/-- The last bound argument of `GetTasks` is the value `Atoi` returns for the limit. -/
theorem GetTasks_build_limit (status? priority? limit? : Option String) :
    (GetTasks.build status? priority? limit?).args.getLast? =
      some (SqlArg.int (Atoi (DefaultQuery limit? "100")).1) := by
  rw [GetTasks_build_cases status? priority? limit? _ _ rfl rfl]
  simp

/-- C5, as stated, fails: on the limit `9223372036854775808` integer parsing fails and the
value bound as the `LIMIT` argument is 9223372036854775807, not 0. -/
theorem GetTasks_limit_overflow_not_zero :
    ¬ (∀ limit : String, (Atoi limit).2 ≠ none →
        (GetTasks.build none none (some limit)).args.getLast? = some (SqlArg.int 0)) := by
  intro h
  have h1 := h "9223372036854775808" (by decide)
  rw [GetTasks_build_limit] at h1
  revert h1
  decide

/-- C5, amended: when `Atoi` fails on the limit, the value bound as the `LIMIT` argument is
0 for a syntax error (such as the empty string); for a range error it is
-9223372036854775808 when the string starts with a minus sign and 9223372036854775807
otherwise; the statement is still issued and a store that answers it with rows gets the
200 response; an absent limit binds 100. -/
theorem GetTasks_limit_parse_failure (status? priority? : Option String) (limit : String)
    (e : NumError) (DBQuery : Stmt → Except DbError (List (Option Task)))
    (hfail : (Atoi limit).2 = some e) :
    (∃ v : Int,
      (GetTasks.build status? priority? (some limit)).args.getLast? = some (SqlArg.int v) ∧
      (e = NumError.ErrSyntax → v = 0) ∧
      (e = NumError.ErrRange →
        v = if hasMinusSign limit = true then -9223372036854775808
            else 9223372036854775807)) ∧
    (∀ tasks : List Task,
      DBQuery (GetTasks.build status? priority? (some limit)) = Except.ok (tasks.map some) →
      GetTasks status? priority? (some limit) DBQuery =
        { code := 200, body := Body.tasks tasks tasks.length }) ∧
    (GetTasks.build status? priority? none).args.getLast? = some (SqlArg.int 100) ∧
    Atoi "" = (0, some NumError.ErrSyntax) := by
  refine ⟨⟨(Atoi limit).1, ?_, (Atoi_failure_value limit e hfail).1,
    (Atoi_failure_value limit e hfail).2⟩, ?_, ?_, by decide⟩
  · rw [GetTasks_build_limit]; rfl
  · intro tasks hq
    simp [GetTasks, hq, GetTasks_scan_all]
  · rw [GetTasks_build_limit]
    have : Atoi (DefaultQuery none "100") = (100, none) := by decide
    rw [this]

theorem GetTasks_limit_parse_failure_witness :
    (Atoi "-9223372036854775809").2 = some NumError.ErrRange ∧
    (GetTasks.build (some "pending") none (some "-9223372036854775809")).args.getLast? =
      some (SqlArg.int (-9223372036854775808)) := by
  have h := GetTasks_limit_parse_failure (some "pending") none "-9223372036854775809"
    NumError.ErrRange (fun _ => Except.ok []) (by decide)
  obtain ⟨⟨v, hv, _, hr⟩, _⟩ := h
  refine ⟨by decide, ?_⟩
  rw [hv, hr rfl]
  decide

/-! ## Facts about the handlers -/

/-- C6: with a total count of 5 and a failing grouped-by-status query, `GetStats` panics
instead of answering 200. -/
theorem GetStats_grouped_query_failure_panics :
    GetStats (Except.ok 5) none (some []) (Except.ok 0) = Outcome.panic ∧
    GetStats (Except.ok 5) (some []) none (Except.ok 0) = Outcome.panic := by
  exact ⟨rfl, rfl⟩

/-- A failing total-count query is answered 500. -/
theorem GetStats_total_failure (e : DbError) (bs bp : Option (List (String × Int)))
    (ct : Except DbError Int) :
    GetStats (Except.error e) bs bp ct =
      Outcome.response { code := 500, body := Body.error "Failed to get stats" } := rfl

/-- When the total count and both grouped queries succeed, `GetStats` answers 200 whether
or not the completed-today query fails. -/
theorem GetStats_best_effort_today (n : Int) (rows1 rows2 : List (String × Int))
    (ct : Except DbError Int) :
    ∃ stats : TaskStats,
      GetStats (Except.ok n) (some rows1) (some rows2) ct =
        Outcome.response { code := 200, body := Body.stats stats } ∧
      stats.Total = n ∧ stats.ByStatus = GetStats.collect rows1 [] ∧
      stats.ByPriority = GetStats.collect rows2 [] ∧
      (∀ e, ct = Except.error e → stats.CompletedToday = 0) ∧
      (∀ k, ct = Except.ok k → stats.CompletedToday = k) := by
  refine ⟨_, rfl, rfl, rfl, rfl, ?_, ?_⟩
  · intro e h
    subst h
    rfl
  · intro k h
    subst h
    rfl

/-- A task that passes the binding tags has a non-empty title and a status and a priority
among the literals, so `Validate` can only object to the byte length of its title. -/
theorem Validate_after_binding (task : Task) (err : ValidationError)
    (hbind : task.bindingFailures = []) (hv : task.Validate = some err) :
    err = ValidationError.ErrTitleTooLong ∧ task.Title.length ≤ 255 ∧ len task.Title > 255 := by
  simp only [Task.bindingFailures, List.append_eq_nil] at hbind
  obtain ⟨⟨ht, hs⟩, hp⟩ := hbind
  have htitle : task.Title ≠ "" ∧ task.Title.length ≤ 255 := by
    by_cases h1 : tagRequired task.Title = true
    · by_cases h2 : tagMin 1 task.Title = true
      · by_cases h3 : tagMax 255 task.Title = true
        · exact ⟨by simpa [tagRequired] using h1, by simpa [tagMax] using h3⟩
        · simp [h1, h2, h3] at ht
      · simp [h1, h2] at ht
    · simp [h1] at ht
  have hstatus : isValidStatus task.Status = true := by
    by_cases h1 : tagRequired task.Status = true
    · by_cases h2 : tagOneof ["pending", "in_progress", "completed"] task.Status = true
      · exact h2
      · simp [h1, h2] at hs
    · simp [h1] at hs
  have hpriority : isValidPriority task.Priority = true := by
    by_cases h1 : tagRequired task.Priority = true
    · by_cases h2 : tagOneof ["low", "medium", "high"] task.Priority = true
      · exact h2
      · simp [h1, h2] at hp
    · simp [h1] at hp
  unfold Task.Validate at hv
  by_cases hl : len task.Title > 255
  · simp [htitle.1, hl] at hv
    exact ⟨hv.symm, htitle.2, hl⟩
  · simp [htitle.1, hl, hstatus, hpriority] at hv

/-- C7, as stated, fails: the body with an empty title decodes to a task on which
`Validate` returns `ErrEmptyTitle`, and `CreateTask` answers it with `Invalid request data`
and the binding failure, not with the message of that error. -/
theorem CreateTask_empty_title_not_validate_message :
    ¬ (∀ (Error : ValidationError → String) (task : Task) (err : ValidationError),
        task.Validate = some err →
        (CreateTask Error (ShouldBindJSON_Task (Except.ok task)) 0 emptyDb).1 =
          { code := 400, body := Body.error (Error err) }) := by
  intro h
  have h1 := h (fun _ => "title is required") emptyTitleTask
    ValidationError.ErrEmptyTitle (by decide)
  revert h1
  decide

/-- C7, amended: a body on which `Validate` returns an error is answered 400 with the store
left as it was, no statement issued; the answer carries the message of that error only when
the task passes the binding tags, and then the error is `ErrTitleTooLong`; when a tag fails
the answer is `Invalid request data` with the failures, and an empty title, a status or a
priority outside the literals always fails a tag; a body that does not decode is answered
400 with `Invalid request data` likewise. -/
theorem CreateTask_rejects_before_storage (Error : ValidationError → String)
    (decoded : Except String Task) (now : Nat) (db : Db) :
    (∀ task err, decoded = Except.ok task → task.Validate = some err →
      (CreateTask Error (ShouldBindJSON_Task decoded) now db).1.code = 400 ∧
      (CreateTask Error (ShouldBindJSON_Task decoded) now db).2 = db ∧
      (CreateTask Error (ShouldBindJSON_Task decoded) now db).2.issued = db.issued ∧
      (CreateTask Error (ShouldBindJSON_Task decoded) now db).2.rows = db.rows) ∧
    (∀ task err, decoded = Except.ok task → task.Validate = some err →
      task.bindingFailures = [] →
      err = ValidationError.ErrTitleTooLong ∧
      CreateTask Error (ShouldBindJSON_Task decoded) now db =
        ({ code := 400, body := Body.error (Error err) }, db)) ∧
    (∀ task, decoded = Except.ok task → task.bindingFailures ≠ [] →
      CreateTask Error (ShouldBindJSON_Task decoded) now db =
        ({ code := 400,
           body := Body.errorDetails "Invalid request data"
             (BindError.validation task.bindingFailures) }, db)) ∧
    (∀ task err, decoded = Except.ok task → task.Validate = some err →
      err ≠ ValidationError.ErrTitleTooLong → task.bindingFailures ≠ []) ∧
    (∀ msg, decoded = Except.error msg →
      CreateTask Error (ShouldBindJSON_Task decoded) now db =
        ({ code := 400,
           body := Body.errorDetails "Invalid request data" (BindError.decode msg) }, db)) := by
  have hfail : ∀ task, task.bindingFailures ≠ [] →
      CreateTask Error (ShouldBindJSON_Task (Except.ok task)) now db =
        ({ code := 400,
           body := Body.errorDetails "Invalid request data"
             (BindError.validation task.bindingFailures) }, db) := by
    intro task hb
    simp [ShouldBindJSON_Task, hb, CreateTask]
  have hpass : ∀ task err, task.bindingFailures = [] → task.Validate = some err →
      CreateTask Error (ShouldBindJSON_Task (Except.ok task)) now db =
        ({ code := 400, body := Body.error (Error err) }, db) := by
    intro task err hb hv
    simp [ShouldBindJSON_Task, hb, CreateTask, hv]
  refine ⟨?_, ?_, ?_, ?_, ?_⟩
  · intro task err hd hv
    subst hd
    by_cases hb : task.bindingFailures = []
    · rw [hpass task err hb hv]
      exact ⟨rfl, rfl, rfl, rfl⟩
    · rw [hfail task hb]
      exact ⟨rfl, rfl, rfl, rfl⟩
  · intro task err hd hv hb
    subst hd
    exact ⟨(Validate_after_binding task err hb hv).1, hpass task err hb hv⟩
  · intro task hd hb
    subst hd
    exact hfail task hb
  · intro task err hd hv hne hb
    exact hne (Validate_after_binding task err hb hv).1
  · intro msg hd
    subst hd
    rfl

theorem CreateTask_rejects_before_storage_witness :
    wideTask.Validate = some ValidationError.ErrTitleTooLong ∧
    wideTask.bindingFailures = [] ∧
    CreateTask (fun _ => "title too long") (ShouldBindJSON_Task (Except.ok wideTask)) 0
        emptyDb =
      ({ code := 400, body := Body.error "title too long" }, emptyDb) := by
  have h := (CreateTask_rejects_before_storage (fun _ => "title too long")
    (Except.ok wideTask) 0 emptyDb).2.1 wideTask ValidationError.ErrTitleTooLong rfl
    (by decide) (by decide)
  exact ⟨by decide, by decide, h.2⟩

theorem find_appended (rows : List Task) (row : Task)
    (hfresh : rows.any (fun r => r.ID == row.ID) = false) :
    (rows ++ [row]).find? (fun r => r.ID == row.ID) = some row := by
  induction rows with
  | nil => simp
  | cons r rs ih =>
    simp only [List.any_cons, Bool.or_eq_false_iff] at hfresh
    simp [List.find?, hfresh.1, ih hfresh.2]

/-- C8: for a task that passes validation and whose insert succeeds, `CreateTask` answers
201 with the submitted title, description, status and priority, the id the store generated
and equal creation and update instants; `GetTask` for that id on the resulting store
answers 200 with the same task. -/
theorem CreateTask_then_GetTask (Error : ValidationError → String) (task : Task) (now : Nat)
    (db : Db) (id : Int) (createdAt updatedAt : Nat)
    (hvalid : task.Validate = none)
    (hinsert : (db.insert (CreateTask.stmt task now)).2 = Except.ok (id, createdAt, updatedAt))
    (hselect : db.refuses (GetTask.stmt id) = false) :
    ∃ created : Task,
      (CreateTask Error (Except.ok task) now db).1 =
        { code := 201, body := Body.task created } ∧
      created.Title = task.Title ∧ created.Description = task.Description ∧
      created.Status = task.Status ∧ created.Priority = task.Priority ∧
      created.ID = id ∧ id = db.nextId ∧
      created.CreatedAt = created.UpdatedAt ∧ created.CreatedAt = db.stamp now ∧
      (GetTask id (CreateTask Error (Except.ok task) now db).2).1 =
        { code := 200, body := Body.task created } := by
  unfold CreateTask
  simp only [hvalid]
  unfold Db.insert at hinsert ⊢
  simp only [CreateTask.stmt] at hinsert ⊢
  by_cases hr : db.refuses (CreateTask.stmt task now) = true
  · simp only [CreateTask.stmt] at hr
    simp [hr] at hinsert
  · simp only [CreateTask.stmt] at hr
    by_cases hk : db.rows.any (fun r => r.ID == db.nextId) = true
    · simp [hr, hk] at hinsert
    · simp only [hr, hk] at hinsert ⊢
      simp only [Bool.false_eq_true, if_false, Except.ok.injEq, Prod.mk.injEq] at hinsert ⊢
      obtain ⟨rfl, rfl, rfl⟩ := hinsert
      refine ⟨_, rfl, rfl, rfl, rfl, rfl, rfl, rfl, rfl, rfl, ?_⟩
      unfold GetTask Db.selectById
      simp only [GetTask.stmt] at hselect ⊢
      simp only [hselect]
      have hk' : db.rows.any (fun r => r.ID == db.nextId) = false := by
        simpa using hk
      have := find_appended db.rows
        { ID := db.nextId, Title := task.Title, Description := task.Description,
          Status := task.Status, Priority := task.Priority, CreatedAt := db.stamp now,
          UpdatedAt := db.stamp now } hk'
      simp only [] at this
      simp [this]

theorem CreateTask_then_GetTask_witness :
    sampleTask.Validate = none ∧
    (emptyDb.insert (CreateTask.stmt sampleTask 7)).2 = Except.ok (1, 7, 7) ∧
    ∃ created : Task,
      (CreateTask (fun _ => "invalid") (Except.ok sampleTask) 7 emptyDb).1 =
        { code := 201, body := Body.task created } ∧
      created.ID = 1 ∧ created.CreatedAt = created.UpdatedAt ∧
      (GetTask 1 (CreateTask (fun _ => "invalid") (Except.ok sampleTask) 7 emptyDb).2).1 =
        { code := 200, body := Body.task created } := by
  obtain ⟨created, h1, _, _, _, _, h6, _, h8, _, h10⟩ :=
    CreateTask_then_GetTask (fun _ => "invalid") sampleTask 7 emptyDb 1 7 7
      (by decide) rfl rfl
  exact ⟨by decide, rfl, created, h1, h6, h8, h10⟩

/-- C9: on a store that executes the statements, `DeleteTask` answers 404 and leaves rows
and id sequence as they were when no row has the id; when a row has it, it answers 200 with
the confirmation message and the id, the rows left are the former rows without those of that
id, in their order, and `GetTask` for the id then answers 404. -/
theorem DeleteTask_frame (db : Db) (id : Int)
    (hdelete : db.refuses (DeleteTask.stmt id) = false)
    (hselect : db.refuses (GetTask.stmt id) = false) :
    ((∀ r ∈ db.rows, r.ID ≠ id) →
      (DeleteTask id db).1 = { code := 404, body := Body.error "Task not found" } ∧
      (DeleteTask id db).2.rows = db.rows ∧ (DeleteTask id db).2.nextId = db.nextId) ∧
    ((∃ r ∈ db.rows, r.ID = id) →
      (DeleteTask id db).1 =
        { code := 200, body := Body.deleted "Task deleted successfully" id } ∧
      (DeleteTask id db).2.rows = db.rows.filter (fun r => r.ID != id) ∧
      (∀ r, r ∈ (DeleteTask id db).2.rows ↔ r ∈ db.rows ∧ r.ID ≠ id) ∧
      (DeleteTask id db).2.nextId = db.nextId ∧
      (GetTask id (DeleteTask id db).2).1 =
        { code := 404, body := Body.error "Task not found" }) := by
  have hd : DeleteTask id db =
      (if (db.rows.filter (fun r => r.ID == id)).length == 0 then
        ({ code := 404, body := Body.error "Task not found" },
          { db with issued := db.issued ++ [DeleteTask.stmt id],
                    rows := db.rows.filter (fun r => r.ID != id) })
      else
        ({ code := 200, body := Body.deleted "Task deleted successfully" id },
          { db with issued := db.issued ++ [DeleteTask.stmt id],
                    rows := db.rows.filter (fun r => r.ID != id) })) := by
    unfold DeleteTask Db.deleteById
    simp only [DeleteTask.stmt] at hdelete ⊢
    simp only [hdelete]
    rfl
  constructor
  · intro hnone
    have h0 : db.rows.filter (fun r => r.ID == id) = [] := by
      simp only [List.filter_eq_nil_iff, beq_iff_eq]
      exact hnone
    have h1 : db.rows.filter (fun r => r.ID != id) = db.rows := by
      simp only [List.filter_eq_self, bne_iff_ne]
      exact hnone
    rw [hd]
    simp [h0, h1]
  · rintro ⟨r, hr, hid⟩
    have h0 : (db.rows.filter (fun r => r.ID == id)).length ≠ 0 := by
      intro h
      have : db.rows.filter (fun r => r.ID == id) = [] := List.length_eq_zero.mp h
      simp only [List.filter_eq_nil_iff, beq_iff_eq] at this
      exact this r hr hid
    have hne : ¬ ((db.rows.filter (fun r => r.ID == id)).length == 0) = true := by
      simpa using h0
    rw [hd, if_neg hne]
    refine ⟨rfl, rfl, ?_, rfl, ?_⟩
    · intro t
      simp [List.mem_filter]
    · unfold GetTask Db.selectById
      simp only [GetTask.stmt] at hselect ⊢
      simp only [hselect]
      have : (db.rows.filter (fun r => r.ID != id)).find? (fun r => r.ID == id) = none := by
        simp [List.find?_eq_none, List.mem_filter]
      simp [this]

/-- C10: when `UpdateTask` does not answer 400, the body decoded to an update on which the
handler goes on to the store, and in it a present title is non-empty with at most 255
characters, a present status is one of the three status literals and a present priority one
of the three priority literals. -/
theorem UpdateTask_accepted_fields_valid (decoded : Except String TaskUpdate) (now : Nat)
    (id : String) (DBQueryRow : Stmt → Except DbError Task)
    (haccepted : (UpdateTask (ShouldBindJSON_TaskUpdate decoded) now id DBQueryRow).code ≠ 400) :
    ∃ update : TaskUpdate,
      decoded = Except.ok update ∧
      UpdateTask (ShouldBindJSON_TaskUpdate decoded) now id DBQueryRow =
        UpdateTask (Except.ok update) now id DBQueryRow ∧
      (∀ title, update.Title = some title → title ≠ "" ∧ title.length ≤ 255) ∧
      (∀ status, update.Status = some status →
        status = "pending" ∨ status = "in_progress" ∨ status = "completed") ∧
      (∀ priority, update.Priority = some priority →
        priority = "low" ∨ priority = "medium" ∨ priority = "high") := by
  cases decoded with
  | error msg => exact absurd rfl haccepted
  | ok update =>
    by_cases hf : update.bindingFailures = []
    · have hb : ShouldBindJSON_TaskUpdate (Except.ok update) = Except.ok update := by
        simp [ShouldBindJSON_TaskUpdate, hf]
      refine ⟨update, rfl, by rw [hb], ?_, ?_, ?_⟩
      · intro title ht
        simp only [TaskUpdate.bindingFailures, ht, List.append_eq_nil] at hf
        have h1 := hf.1.1
        by_cases hmin : tagMin 1 title = true
        · by_cases hmax : tagMax 255 title = true
          · simp only [tagMin, tagMax, decide_eq_true_eq] at hmin hmax
            refine ⟨?_, hmax⟩
            intro h
            subst h
            simp at hmin
          · simp [hmin, hmax] at h1
        · simp [hmin] at h1
      · intro status hs
        simp only [TaskUpdate.bindingFailures, hs, List.append_eq_nil] at hf
        have h2 := hf.1.2
        by_cases ho : tagOneof ["pending", "in_progress", "completed"] status = true
        · exact (isValidStatus_iff status).mp ho
        · simp [ho] at h2
      · intro priority hp
        simp only [TaskUpdate.bindingFailures, hp, List.append_eq_nil] at hf
        have h3 := hf.2
        by_cases ho : tagOneof ["low", "medium", "high"] priority = true
        · exact (isValidPriority_iff priority).mp ho
        · simp [ho] at h3
    · have hb : ShouldBindJSON_TaskUpdate (Except.ok update) =
          Except.error (BindError.validation update.bindingFailures) := by
        simp [ShouldBindJSON_TaskUpdate, hf]
      rw [hb] at haccepted
      exact absurd rfl haccepted

theorem UpdateTask_accepted_fields_valid_witness :
    (UpdateTask (ShouldBindJSON_TaskUpdate (Except.ok statusOnly)) 9 "1"
      (fun _ => Except.error DbError.ErrNoRows)).code = 404 ∧
    ∃ update : TaskUpdate, (Except.ok statusOnly : Except String TaskUpdate) = Except.ok update ∧
      (∀ status, update.Status = some status →
        status = "pending" ∨ status = "in_progress" ∨ status = "completed") := by
  obtain ⟨u, h1, _, _, h4, _⟩ := UpdateTask_accepted_fields_valid (Except.ok statusOnly) 9 "1"
    (fun _ => Except.error DbError.ErrNoRows) (by decide)
  exact ⟨by decide, u, h1, h4⟩

theorem DeleteTask_frame_witness :
    (DeleteTask 1 twoRowDb).1 =
      { code := 200, body := Body.deleted "Task deleted successfully" 1 } ∧
    (DeleteTask 1 twoRowDb).2.rows = twoRowDb.rows.filter (fun r => r.ID != 1) ∧
    (GetTask 1 (DeleteTask 1 twoRowDb).2).1 =
      { code := 404, body := Body.error "Task not found" } ∧
    (DeleteTask 7 twoRowDb).1 = { code := 404, body := Body.error "Task not found" } := by
  have h := (DeleteTask_frame twoRowDb 1 rfl rfl).2 ⟨_, List.mem_cons_self _ _, rfl⟩
  have h7 := (DeleteTask_frame twoRowDb 7 rfl rfl).1 (by decide)
  exact ⟨h.1, h.2.1, h.2.2.2.2, h7.1⟩

end TaskManager
